import Mathlib

/-!
Verification of the CSV ↔ XLSX conversion utilities (csv_to_excel.py and
excel_to_csv.py) against their natural-language specification.

The Python sources are shallowly embedded: strings are `List Char`, the
filesystem and the write-permission probe are explicit state records, the
workbook collaborator is an ordered list of sheets, and every fallible step
returns `Except`/`Option`.  All definitions are executable so that concrete
runs can be settled by `decide`/`rfl`.
-/

set_option maxRecDepth 4000

/-- Word-character test modelling Python's `\w` class as used by
`re.sub(r"[^\w]", "_", name)` in `sanitize_name` (csv_to_excel.py line 109).
Python's `\w` on `str` is Unicode-aware: below U+0080 it is exactly ASCII
alphanumerics plus underscore, and on the Latin-1 supplement it matches the
alphanumeric characters (ª ² ³ µ ¹ º ¼ ½ ¾ and the letter ranges À–Ö, Ø–ö,
ø–ÿ).  The model is exact on those first 256 codepoints; above U+00FF the
Unicode word property continues but this development never evaluates the
function there, and no theorem below depends on its value in that region. -/
def pyWordChar (c : Char) : Bool :=
  c.isAlphanum || c == '_' ||
    (c.toNat == 0xAA || c.toNat == 0xB2 || c.toNat == 0xB3 || c.toNat == 0xB5 ||
     c.toNat == 0xB9 || c.toNat == 0xBA || c.toNat == 0xBC || c.toNat == 0xBD ||
     c.toNat == 0xBE ||
     (decide (0xC0 ≤ c.toNat) && decide (c.toNat ≤ 0xFF) &&
      decide (c.toNat ≠ 0xD7) && decide (c.toNat ≠ 0xF7)))

/-- Character substitution step of `sanitize_name`:
`re.sub(r"[^\w]", "_", name)` replaces every non-word character by `'_'`
(csv_to_excel.py line 109). -/
def pySub (s : List Char) : List Char :=
  s.map (fun c => if pyWordChar c then c else '_')

/-- Python slice `s[:i]` for an arbitrary integer bound `i`: a nonnegative
bound takes the first `i` characters (clamped at the length), a negative
bound drops the last `-i` characters (clamped at the empty string). -/
def pySliceTake (s : List Char) (i : Int) : List Char :=
  if 0 ≤ i then s.take i.toNat else s.take (s.length - (-i).toNat)

/-- Model of `sanitize_name(name, max_length)` (csv_to_excel.py lines 96-111):
substitute non-word characters by underscores, and if the result is longer
than `max_length` return `sanitized[:max_length - 3] + "..."`.  `max_length`
is an `Int` because the Python parameter is an int and the slice is total
even for values below 3 (Python's negative slicing). -/
def sanitize_name (name : List Char) (max_length : Int) : List Char :=
  let sanitized := pySub name
  if max_length < (sanitized.length : Int) then
    pySliceTake sanitized (max_length - 3) ++ ("...").data
  else sanitized

/-- Character class `[A-Za-z0-9_]` exactly as written in the specification's
testable property for the sanitizer (spec §8 line 101); used to compare the
specified character set with what the code produces. -/
def asciiWordChar (c : Char) : Bool :=
  (decide ('A' ≤ c) && decide (c ≤ 'Z')) ||
  (decide ('a' ≤ c) && decide (c ≤ 'z')) ||
  (decide ('0' ≤ c) && decide (c ≤ '9')) || c == '_'

/-- Python `s.startswith(p)`: does `s` begin with `p`?  Models the
`output_folder_abs.startswith(input_path_abs)` test
(csv_to_excel.py line 139). -/
def startswith : List Char → List Char → Bool
  | _, [] => true
  | [], _ :: _ => false
  | c :: s, p :: ps => c == p && startswith s ps

/-- Model of `os.path.dirname` (posixpath) on the absolute paths the script
compares: everything up to the last `'/'`, with trailing slashes stripped
unless the result consists only of slashes; a path with no slash has
dirname `""`. -/
def dirname (p : List Char) : List Char :=
  let base := p.reverse.takeWhile (fun c => c != '/')
  if base.length = p.length then []
  else
    let head := p.take (p.length - base.length)
    if head.all (fun c => c == '/') then head
    else (head.reverse.dropWhile (fun c => c == '/')).reverse

/-- Errors raised by `validate_and_create_output_folder`
(csv_to_excel.py lines 114-165): the `ValueError` for a non-child,
non-sibling output folder that does not exist, the error propagated when
`os.makedirs` fails, and the `PermissionError` from the write probe.  The
source raises no other error from this function; in particular it contains
no extension check of any kind. -/
inductive VErr
  | invalidOutputLocation
  | folderCreationError
  | permissionDenied
deriving DecidableEq

/-- Outcome environment for the three I/O operations of the
write-permission probe (csv_to_excel.py lines 154-165): whether `open`
succeeds, whether `f.write` succeeds, and whether `os.remove` succeeds. -/
structure ProbeEnv where
  openOk : Bool
  writeOk : Bool
  removeOk : Bool

/-- Filesystem abstraction for the path-validation step: which absolute
folders exist, whether `os.makedirs` would succeed on a folder, and the
probe outcomes for writing into a folder. -/
structure FS where
  pathExists : List Char → Bool
  mkdirOk : List Char → Bool
  probe : List Char → ProbeEnv

/-- Model of the write-permission probe (csv_to_excel.py lines 154-165).
Result: the `Except` outcome of the check, paired with whether the probe
file `.write_test.tmp` still exists in the folder after the check returns.
Tracing the source: if `open` fails no file was created; if `open` succeeds
but `f.write` raises `IOError`, the handler raises `PermissionError`
without reaching the `os.remove` line, so the file is left behind; if
`os.remove` itself fails the file likewise remains. -/
def write_probe (env : ProbeEnv) : Except VErr Unit × Bool :=
  if env.openOk then
    if env.writeOk then
      if env.removeOk then (Except.ok (), false)
      else (Except.error VErr.permissionDenied, true)
    else (Except.error VErr.permissionDenied, true)
  else (Except.error VErr.permissionDenied, false)

/-- Model of `validate_and_create_output_folder(output_path, input_path)`
(csv_to_excel.py lines 114-165).  Both arguments are already-resolved
absolute paths, as arranged by `combine_csvs` (lines 185 and 192), so
`os.path.abspath` is the identity on them.  Tracing the source: an empty
dirname returns immediately; if the output folder exists the child/sibling
rule is NOT consulted and only the write probe runs; only a non-existing
folder is subjected to the `startswith`-or-same-parent rule, after which it
is created. -/
def validate_and_create_output_folder
    (output_path input_path : List Char) (fs : FS) : Except VErr Unit :=
  let output_folder := dirname output_path
  if output_folder = [] then Except.ok ()
  else
    if fs.pathExists output_folder then (write_probe (fs.probe output_folder)).1
    else if startswith output_folder input_path ||
            dirname output_folder == dirname input_path then
      if fs.mkdirOk output_folder then (write_probe (fs.probe output_folder)).1
      else Except.error VErr.folderCreationError
    else Except.error VErr.invalidOutputLocation

/-- File-writing skeleton of `combine_csvs` (csv_to_excel.py lines
191-198 and 249-255): when output validation raises, the function returns
before creating the workbook and nothing is written; otherwise the single
persisted artifact is the workbook saved at `output_path`.  The result is
the list of file paths written by the run. -/
def combine_saves (output_path input_path : List Char) (fs : FS) :
    List (List Char) :=
  match validate_and_create_output_folder output_path input_path fs with
  | Except.error _ => []
  | Except.ok _ => [output_path]

/-- Filesystem in which only `/etc` exists (and is writable): the setting of
spec §8 Scenario E, with input directory resolved to `/root/data`. -/
def fsEtc : FS :=
  { pathExists := fun p => p == ("/etc").data
  , mkdirOk := fun _ => true
  , probe := fun _ => ⟨true, true, true⟩ }

/-- Filesystem in which no folder exists yet and creation would succeed. -/
def fsNone : FS :=
  { pathExists := fun _ => false
  , mkdirOk := fun _ => true
  , probe := fun _ => ⟨true, true, true⟩ }

/-- Filesystem in which only the input directory `/root/data` exists and is
writable. -/
def fsData : FS :=
  { pathExists := fun p => p == ("/root/data").data
  , mkdirOk := fun _ => true
  , probe := fun _ => ⟨true, true, true⟩ }

/-- Cell value as seen through openpyxl with `data_only=True`: `none` is an
empty cell (Python `None`), `some s` a stored scalar, kept abstract as its
textual content since the spec delegates type formatting to the external
library. -/
abbrev Val := Option (List Char)

/-- Named table of a worksheet: its display name and its `ref` range string
such as `"A1:C4"`, exactly the two pieces of table metadata the scripts
touch. -/
structure XTable where
  name : List Char
  ref : List Char
deriving DecidableEq

/-- Worksheet: title, the used-range grid of cell values in row-major
order (what `sheet.iter_rows()` enumerates), and the declared named tables
in order. -/
structure Sheet where
  title : List Char
  grid : List (List Val)
  tables : List XTable
deriving DecidableEq

/-- Workbook: the ordered list of sheets, matching `wb.sheetnames`
enumeration order. -/
abbrev Workbook := List Sheet

/-- Model of `sheet.cell(row=r, column=c).value` with 1-based coordinates:
a coordinate outside the populated grid reads as an empty cell. -/
def cellVal (g : List (List Val)) (r c : Nat) : Val :=
  (g[r - 1]?.bind (fun row => row[c - 1]?)).join

/-- Model of the emptiness test
`all(cell.value is None for row in sheet.iter_rows() for cell in row)`
(excel_to_csv.py line 89). -/
def allEmpty (g : List (List Val)) : Bool :=
  g.all (fun row => row.all (fun v => v.isNone))

/-- Uppercase column letter test used when parsing an `A1`-style
coordinate. -/
def isUpperAZ (c : Char) : Bool :=
  decide (65 ≤ c.toNat) && decide (c.toNat ≤ 90)

/-- Decimal digit test used when parsing an `A1`-style coordinate. -/
def isDigitC (c : Char) : Bool :=
  decide (48 ≤ c.toNat) && decide (c.toNat ≤ 57)

/-- Decimal digit character. -/
def digitChar (d : Nat) : Char := Char.ofNat (48 + d)

/-- Little-endian decimal digit characters of `n`, with explicit fuel so
the definition is structural (`fuel ≥ n` suffices). -/
def revDigits : Nat → Nat → List Char
  | 0, _ => []
  | _ + 1, 0 => []
  | fuel + 1, n + 1 =>
    digitChar ((n + 1) % 10) :: revDigits fuel ((n + 1) / 10)

/-- Python `str(n)` for a natural number: its decimal digits. -/
def pyStrNat (n : Nat) : List Char :=
  if n = 0 then [digitChar 0] else (revDigits n n).reverse

/-- Parse a nonempty all-digit string as a natural number (the `int()`
applied to the row part of a cell coordinate). -/
def parseNat (s : List Char) : Option Nat :=
  if s = [] then none
  else if s.all isDigitC then
    some (s.foldl (fun a c => a * 10 + (c.toNat - 48)) 0)
  else none

/-- Consume the leading column letters of an `A1`-style coordinate,
accumulating the base-26 column number, and return it with the unconsumed
remainder. -/
def parseColLoop : List Char → Nat → Nat × List Char
  | [], acc => (acc, [])
  | c :: rest, acc =>
    if isUpperAZ c then parseColLoop rest (acc * 26 + (c.toNat - 64))
    else (acc, c :: rest)

/-- Model of resolving a cell coordinate string to `(row, column)`, the
`.row`/`.column` fields the script reads from `sheet[start_cell]` and
`sheet[end_cell]` (excel_to_csv.py lines 101-104); a string that is not
letters-then-digits raises in openpyxl, modelled as `none`. -/
def parseCell (s : List Char) : Option (Nat × Nat) :=
  match parseColLoop s 0 with
  | (col, rest) =>
    if col = 0 then none
    else
      match parseNat rest with
      | some row => some (row, col)
      | none => none

/-- Python `str.split(sep)` for a single-character separator. -/
def pySplit (sep : Char) : List Char → List (List Char)
  | [] => [[]]
  | c :: rest =>
    if c = sep then [] :: pySplit sep rest
    else
      match pySplit sep rest with
      | part :: parts => (c :: part) :: parts
      | [] => [[c]]

/-- Model of `start_cell, end_cell = table_range.split(":")`
(excel_to_csv.py line 99): the two-element unpacking raises unless the
split yields exactly two parts. -/
def splitColon (s : List Char) : Option (List Char × List Char) :=
  match pySplit ':' s with
  | [a, b] => some (a, b)
  | _ => none

/-- Model of reading the rectangle a table reference spans
(excel_to_csv.py lines 99-109): split the ref at `':'`, resolve both
coordinates, and read every cell with
`range(min_row, max_row + 1)` × `range(min_col, max_col + 1)`; any failure
along the way raises, modelled as `none`. -/
def tableRect (g : List (List Val)) (ref : List Char) :
    Option (List (List Val)) :=
  (splitColon ref).bind (fun ab =>
    (parseCell ab.1).bind (fun rc1 =>
      (parseCell ab.2).bind (fun rc2 =>
        some ((List.range' rc1.1 (rc2.1 + 1 - rc1.1)).map (fun r =>
              (List.range' rc1.2 (rc2.2 + 1 - rc1.2)).map (fun c =>
                cellVal g r c))))))

/-- Model of the per-table loop of a sheet with named tables
(excel_to_csv.py lines 94-114): each table's rectangle is written to
`"<sheetName> - <tableName>.csv"`; an error while handling one table
aborts the remaining tables of the sheet (the per-sheet `except`), keeping
the files already written. -/
def extractTables (title : List Char) (g : List (List Val)) :
    List XTable → List (List Char × List (List Val))
  | [] => []
  | t :: ts =>
    match tableRect g t.ref with
    | some rows =>
      (title ++ (" - ").data ++ t.name ++ (".csv").data, rows) ::
        extractTables title g ts
    | none => []

/-- Model of the per-sheet body of `extract_sheets_to_csv`
(excel_to_csv.py lines 85-122): a sheet whose every cell is empty is
skipped; a sheet with named tables yields one CSV per table; a sheet
without tables yields its whole used range as `"<sheetName>.csv"`.  Each
result is the written filename with the rows of raw values it contains
(written with `header=False`, so no header row is added). -/
def extract_sheet (s : Sheet) : List (List Char × List (List Val)) :=
  if allEmpty s.grid then []
  else if s.tables.isEmpty then [(s.title ++ (".csv").data, s.grid)]
  else extractTables s.title s.grid s.tables

/-- Model of `wb[sheet_name]`: the first sheet carrying the name. -/
def lookupSheet (wb : Workbook) (n : List Char) : Option Sheet :=
  wb.find? (fun s => s.title == n)

/-- Iteration skeleton `for sheet_name in wb.sheetnames: sheet =
wb[sheet_name]` (excel_to_csv.py lines 85-87): each name is resolved
against the workbook before the sheet is processed. -/
def extractByNames (wb : Workbook) :
    List (List Char) → List (List Char × List (List Val))
  | [] => []
  | n :: ns =>
    (match lookupSheet wb n with
     | some s => extract_sheet s
     | none => []) ++ extractByNames wb ns

/-- Model of `extract_sheets_to_csv` (excel_to_csv.py lines 71-122) at the
level of written CSV files: the list of `(filename, rows)` pairs produced
for a loaded workbook. -/
def extract_sheets_to_csv (wb : Workbook) :
    List (List Char × List (List Val)) :=
  extractByNames wb (wb.map Sheet.title)

/-- Field separator passed to every `df.to_csv(..., sep=",", ...)` call in
excel_to_csv.py (lines 113 and 119): a hard-coded comma. -/
def to_csv_sep : Char := ','

/-- Textual form of one cell in the written CSV: an empty cell prints as
the empty field (pandas writes `None` as nothing); quoting of special
characters is the external library's concern (spec §1) and the fields used
in the theorems below contain none. -/
def to_csv_field (v : Val) : List Char :=
  match v with
  | some s => s
  | none => []

/-- One line of the CSV emitted by `df.to_csv` in excel_to_csv.py: the
fields joined by the hard-coded separator `to_csv_sep`. -/
def to_csv_line (row : List Val) : List Char :=
  List.intercalate [to_csv_sep] (row.map to_csv_field)

/-- Column letter computed by `chr(65 + len(df.columns) - 1)`
(csv_to_excel.py line 237). -/
def colChr (n : Nat) : Char := Char.ofNat (65 + n - 1)

/-- Model of the table range f-string
`f"A1:{chr(65 + len(df.columns) - 1)}{len(df) + 1}"`
(csv_to_excel.py line 237), for `ncols` columns and `nrows` data rows. -/
def table_range (ncols nrows : Nat) : List Char :=
  ("A1:").data ++ [colChr ncols] ++ pyStrNat (nrows + 1)

/-- Model of `os.path.splitext(filename)[0]` (posixpath) for a basename:
split at the last dot, except that a name whose characters before that dot
are all dots (such as `".csv"`) is not split. -/
def splitext_root (f : List Char) : List Char :=
  let ext := f.reverse.takeWhile (fun c => c != '.')
  if ext.length = f.length then f
  else
    let root := f.take (f.length - ext.length - 1)
    if root.all (fun c => c == '.') then f else root

/-- One input CSV as read by `pd.read_csv(..., header=0)`: the filename,
the header row, and the data rows.  pandas guarantees a rectangular frame,
stated as an explicit hypothesis where needed. -/
structure CsvFile where
  filename : List Char
  header : List (List Char)
  rows : List (List (List Char))
deriving DecidableEq

/-- Sheet built for one CSV by the per-file body of `combine_csvs`
(csv_to_excel.py lines 219-243): the tab name is the sanitized stem, the
table name is the tab name sanitized again, the grid is the header row
followed by the data rows, and the single registered table carries the
computed `table_range`. -/
def sheetOfCsv (f : CsvFile) : Sheet :=
  let tab_name := sanitize_name (splitext_root f.filename) 31
  { title := tab_name
  , grid := (f.header :: f.rows).map (fun r => r.map (fun v => some v))
  , tables := [{ name := sanitize_name tab_name 31
               , ref := table_range f.header.length f.rows.length }] }

/-- Standard spreadsheet column naming (A, B, …, Z, AA, AB, …) with
explicit fuel so the definition is structural (`fuel ≥ n` suffices). -/
def specExcelColAux : Nat → Nat → List Char
  | _, 0 => []
  | 0, _ + 1 => []
  | fuel + 1, k + 1 => specExcelColAux fuel (k / 26) ++ [Char.ofNat (65 + k % 26)]

/-- Modelled from the spec: the name of the `n`-th spreadsheet column
(1-based) in standard A1 notation, used to state what "the cell at the
last populated column" (spec §4.4) denotes. -/
def specExcelCol (n : Nat) : List Char := specExcelColAux n n

/-- Modelled from the spec: the range of "the full written rectangle (from
the first cell to the last populated row/column)" (spec §4.4) for `ncols`
columns and `nrows` data rows plus a header row. -/
def specTableRange (ncols nrows : Nat) : List Char :=
  ("A1:").data ++ specExcelCol ncols ++ pyStrNat (nrows + 1)

/-- Sheet whose only cell is empty but which declares a named table, for
exercising the empty-sheet skip ahead of the table branch. -/
def sheetEmptyT : Sheet :=
  { title := ("Sheet1").data
  , grid := [[none]]
  , tables := [{ name := ("T1").data, ref := ("A1:A1").data }] }

/-- Non-empty sheet declaring a table whose reference string is not an
`A1`-style range. -/
def sheetBadRef : Sheet :=
  { title := ("S").data
  , grid := [[some ("x").data]]
  , tables := [{ name := ("T1").data, ref := ("garbage").data }] }

/-- Two input CSVs with different contents whose filenames sanitize to the
same sheet name `a_b`. -/
def fileSpace : CsvFile :=
  { filename := ("a b.csv").data
  , header := [("h").data]
  , rows := [[("1").data]] }

/-- Companion file colliding with `fileSpace` after sanitization. -/
def fileUnderscore : CsvFile :=
  { filename := ("a_b.csv").data
  , header := [("h").data]
  , rows := [[("2").data]] }

/-- Input CSV with 27 columns, one more than the `chr(65 + n - 1)` column
letter computation supports. -/
def fileWide : CsvFile :=
  { filename := ("c.csv").data
  , header := List.replicate 27 (("h").data)
  , rows := [List.replicate 27 (("1").data)] }

/-- Non-empty sheet `Sheet1` declaring two named tables `T1` and `T2`, the
setting of spec §8 Scenario C. -/
def sheetTables2 : Sheet :=
  { title := ("Sheet1").data
  , grid := [[some ("a").data, some ("b").data],
             [some ("1").data, some ("2").data]]
  , tables := [{ name := ("T1").data, ref := ("A1:B2").data },
               { name := ("T2").data, ref := ("A1:A2").data }] }

/-- Numeric counters openpyxl's `avoid_duplicate_name` collects for a
taken title: the values carried by existing names of the form
`value + digits`.  (openpyxl gathers them with an unanchored regular
expression over the comma-joined names, which can only pick up additional
counters from other titles; that can only increase the chosen counter and
never affects the freshness the theorems below rely on.) -/
def nameCounters (names : List (List Char)) (v : List Char) : List Nat :=
  names.filterMap (fun n =>
    if n.take v.length == v then
      let suf := n.drop v.length
      if !suf.isEmpty && suf.all isDigitC then parseNat suf else none
    else none)

/-- Model of openpyxl's `avoid_duplicate_name`, applied by the worksheet
title setter inside `wb.create_sheet`: a title that is already taken gets
the highest existing numeric suffix plus one appended (`a_b` → `a_b1`), so
duplicate input titles never produce two sheets with the same name. -/
def avoid_duplicate_name (names : List (List Char)) (v : List Char) :
    List Char :=
  if v ∈ names then v ++ pyStrNat ((nameCounters names v).foldr max 0 + 1)
  else v

/-- Column-letter class `[A-Za-z]` of openpyxl's `CellRange` MatchPattern
descriptor (`openpyxl.descriptors.excel`), which validates `Table.ref` at
construction: both uppercase and lowercase letters are accepted there. -/
def isRefLetter (c : Char) : Bool :=
  (decide (65 ≤ c.toNat) && decide (c.toNat ≤ 90)) ||
  (decide (97 ≤ c.toNat) && decide (c.toNat ≤ 122))

/-- Strip one optional leading `$` of a coordinate part, per the
`[$]?` groups of the `CellRange` pattern. -/
def stripDollar (s : List Char) : List Char :=
  match s with
  | [] => []
  | c :: rest => if c = '$' then rest else c :: rest

/-- One side of the `CellRange` pattern:
`[$]?[A-Za-z]{1,3}[$]?\d+` — one to three letters of either case followed
by at least one digit, with optional dollar signs. -/
def validCoord (s : List Char) : Bool :=
  let s1 := stripDollar s
  let letters := s1.takeWhile isRefLetter
  let rest := stripDollar (s1.drop letters.length)
  decide (1 ≤ letters.length) && decide (letters.length ≤ 3) &&
    !rest.isEmpty && rest.all isDigitC

/-- Model of the `CellRange` MatchPattern that openpyxl checks when
`Table(displayName=..., ref=...)` is constructed (csv_to_excel.py line
238): a coordinate or a colon-separated pair of coordinates.  A ref that
fails this pattern makes the constructor raise `ValueError`, which the
per-file `except` (lines 246-247) turns into an untabled sheet whose data
remains. -/
def validCellRange (s : List Char) : Bool :=
  match pySplit ':' s with
  | [a] => validCoord a
  | [a, b] => validCoord a && validCoord b
  | _ => false

/-- Case-folded table-name comparison of `ws.add_table`, which rejects a
`displayName` that upper-cases to an existing table's name.  Lean's
`Char.toUpper` folds the ASCII range, which covers every table name the
theorems below construct; a missed fold beyond ASCII could only turn an
untabled sheet into a correctly-tabled one, and both preserve the sheet's
contents. -/
def eqUpperName (a b : List Char) : Bool :=
  a.map Char.toUpper == b.map Char.toUpper

/-- All table display names registered in the workbook so far, the set
`ws.add_table` checks new names against. -/
def tableNames : Workbook → List (List Char)
  | [] => []
  | s :: rest => s.tables.map XTable.name ++ tableNames rest

/-- The sheet built when `combine_csvs` processes one non-empty CSV
against the workbook state `wb` (csv_to_excel.py lines 219-243): the title
is the sanitized stem passed through the collaborator's duplicate-title
renaming; the grid is the header row followed by the data rows; and the
table is registered only if its computed `table_range` passes the
`CellRange` construction check and its display name (the tab name
sanitized again, so dots of a truncated name become underscores) is not
already taken — otherwise `Table(...)` or `ws.add_table` raises into the
per-file `except` and the sheet keeps its data untabled. -/
def newSheet (wb : Workbook) (f : CsvFile) : Sheet :=
  let tab_name := sanitize_name (splitext_root f.filename) 31
  let table_name := sanitize_name tab_name 31
  let ref := table_range f.header.length f.rows.length
  { title := avoid_duplicate_name (wb.map Sheet.title) tab_name
  , grid := (f.header :: f.rows).map (fun r => r.map (fun v => some v))
  , tables :=
      if validCellRange ref &&
         !((tableNames wb).any (fun n => eqUpperName n table_name))
      then [{ name := table_name, ref := ref }] else [] }

/-- One iteration of the per-file loop: `create_sheet` appends the new
sheet to the workbook. -/
def addFile (wb : Workbook) (f : CsvFile) : Workbook :=
  wb ++ [newSheet wb f]

/-- Model of the sheet-building loop of `combine_csvs` (csv_to_excel.py
lines 207-243) over the `.csv` files surviving the ignore filter, in
listing order: files whose frame is empty are skipped, every other file
contributes one sheet via `addFile`. -/
def combine_csvs_wb (files : List CsvFile) : Workbook :=
  (files.filter (fun f => !f.rows.isEmpty)).foldl addFile []

/-- Boundaries of a table reference as resolved when the workbook is
saved: `Table._initialise_columns` runs `range_boundaries` over the ref,
and `column_index_from_string` resolves column letters through its
uppercase-only lookup table.  The parse succeeds exactly when both sides
of the colon are uppercase letters followed by digits. -/
def parseRefBounds (ref : List Char) : Option ((Nat × Nat) × (Nat × Nat)) :=
  (splitColon ref).bind (fun ab =>
    (parseCell ab.1).bind (fun rc1 =>
      (parseCell ab.2).bind (fun rc2 => some (rc1, rc2))))

/-- Whether `wb.save` succeeds: writing each registered table resolves its
reference via `parseRefBounds`; a reference that passed the
construction-time `CellRange` pattern but carries a lowercase column
letter (as `chr(65 + ncols - 1)` produces for 33 to 58 columns) fails this
uppercase-only resolution, `wb.save` raises `ValueError`, the handler at
csv_to_excel.py lines 250-255 reports the failure, and no workbook file is
written. -/
def wb_saveable (wb : Workbook) : Bool :=
  wb.all (fun s => s.tables.all (fun t => (parseRefBounds t.ref).isSome))

/-- The full pipeline of the round-trip: build the workbook, save it —
which yields no file at all when `wb_saveable` fails — and convert the
saved workbook back, collecting the written `(filename, rows)` pairs. -/
def combine_then_extract (files : List CsvFile) :
    List (List Char × List (List Val)) :=
  let wb := combine_csvs_wb files
  if wb_saveable wb then extract_sheets_to_csv wb else []

/-- Input CSV with 33 columns: `chr(65 + 33 - 1)` is the lowercase letter
`'a'`, the zone where the computed table reference passes construction but
cannot be saved. -/
def file33 : CsvFile :=
  { filename := ("c.csv").data
  , header := List.replicate 33 (("h").data)
  , rows := [List.replicate 33 (("1").data)] }

theorem pySub_mem {s : List Char} {c : Char} (h : c ∈ pySub s) :
    pyWordChar c = true := by
  rcases List.mem_map.mp h with ⟨a, _, ha⟩
  subst ha
  by_cases hw : pyWordChar a = true
  · simp [hw]
  · simp only [Bool.not_eq_true] at hw
    simp only [hw, Bool.false_eq_true, if_false]
    decide

theorem sanitize_name_chars (s : List Char) (m : Int) :
    ∀ c ∈ sanitize_name s m, pyWordChar c = true ∨ c = '.' := by
  intro c hc
  unfold sanitize_name at hc
  by_cases h : m < ((pySub s).length : Int)
  · simp only [h, if_true] at hc
    rcases List.mem_append.mp hc with h1 | h2
    · left
      apply pySub_mem (s := s)
      unfold pySliceTake at h1
      by_cases h0 : 0 ≤ m - 3
      · simp only [h0, if_true] at h1
        exact List.take_subset _ _ h1
      · simp only [h0, if_false] at h1
        exact List.take_subset _ _ h1
    · right
      simpa using h2
  · simp only [h, if_false] at hc
    exact Or.inl (pySub_mem hc)

theorem sanitize_name_bound (s : List Char) (m : Int) (h : 3 ≤ m) :
    ((sanitize_name s m).length : Int) ≤ m := by
  unfold sanitize_name
  by_cases hl : m < ((pySub s).length : Int)
  · simp only [hl, if_true]
    unfold pySliceTake
    have h0 : 0 ≤ m - 3 := by omega
    simp only [h0, if_true, List.length_append, List.length_take]
    have hm : (m - 3).toNat ≤ (pySub s).length := by omega
    rw [Nat.min_eq_left hm]
    have hd : (("...").data).length = 3 := rfl
    rw [hd]
    omega
  · simp only [hl, if_false]
    omega

/-- Claim C2 (amended): for every raw string and every `maxLength ≥ 3`,
`sanitize_name` returns a string of length at most `maxLength` whose every
character is either a word character of the code's `\w` class (on ASCII
input this is `[A-Za-z0-9_]`) or a `'.'` of the `"..."` appended on
truncation. -/
theorem sanitize_only_wordlike_and_bounded (s : List Char) (m : Int)
    (h : 3 ≤ m) :
    ((sanitize_name s m).length : Int) ≤ m
    ∧ ∀ c ∈ sanitize_name s m, pyWordChar c = true ∨ c = '.' :=
  ⟨sanitize_name_bound s m h, sanitize_name_chars s m⟩

theorem sanitize_only_wordlike_and_bounded_w :
    (3 : Int) ≤ 31
    ∧ (((sanitize_name (("my file!").data) 31).length : Int) ≤ 31
       ∧ ∀ c ∈ sanitize_name (("my file!").data) 31,
           pyWordChar c = true ∨ c = '.') :=
  ⟨by decide, sanitize_only_wordlike_and_bounded (("my file!").data) 31 (by decide)⟩

/-- Claim C2 (counterexample): the claim as stated is false on the code:
sanitizing a 35-character name at the default limit 31 yields a string
containing `'.'`, which is outside `[A-Za-z0-9_]`, because truncation
appends the literal `"..."`. -/
theorem sanitize_emits_dots_outside_class :
    (sanitize_name (List.replicate 35 'a') 31).length ≤ 31
    ∧ ((sanitize_name (List.replicate 35 'a') 31).all asciiWordChar) = false := by
  decide

/-- Claim C8: when the substituted form is strictly longer than
`maxLength ≥ 3`, `sanitize_name` returns the first `maxLength - 3`
substituted characters followed by the literal `"..."`, so the result ends
with `"..."` and has length exactly `maxLength`. -/
theorem sanitize_truncates_with_ellipsis (s : List Char) (m : Int)
    (h3 : 3 ≤ m) (hl : m < ((pySub s).length : Int)) :
    sanitize_name s m = (pySub s).take (m.toNat - 3) ++ ("...").data
    ∧ ((sanitize_name s m).length : Int) = m
    ∧ ∃ t, sanitize_name s m = t ++ ("...").data := by
  have heq : sanitize_name s m
      = (pySub s).take (m.toNat - 3) ++ ("...").data := by
    unfold sanitize_name pySliceTake
    simp only [hl, if_true]
    have h0 : 0 ≤ m - 3 := by omega
    simp only [h0, if_true]
    have ht : (m - 3).toNat = m.toNat - 3 := by omega
    rw [ht]
  refine ⟨heq, ?_, ⟨_, heq⟩⟩
  rw [heq]
  simp only [List.length_append, List.length_take]
  have hm : m.toNat - 3 ≤ (pySub s).length := by omega
  rw [Nat.min_eq_left hm]
  have hd : (("...").data).length = 3 := rfl
  rw [hd]
  omega

theorem sanitize_truncates_with_ellipsis_w :
    ((3 : Int) ≤ 31
     ∧ (31 : Int) < ((pySub (List.replicate 35 'a')).length : Int))
    ∧ (sanitize_name (List.replicate 35 'a') 31
         = (pySub (List.replicate 35 'a')).take ((31 : Int).toNat - 3)
             ++ ("...").data
       ∧ ((sanitize_name (List.replicate 35 'a') 31).length : Int) = 31
       ∧ ∃ t, sanitize_name (List.replicate 35 'a') 31 = t ++ ("...").data) :=
  ⟨⟨by decide, by decide⟩,
   sanitize_truncates_with_ellipsis (List.replicate 35 'a') 31
     (by decide) (by decide)⟩

/-- Claim C10: `sanitize_name` is total on every string and every integer
`max_length`, including values below 3, where Python's negative slicing
applies: the model is a plain total function (no error case), every output
character is a word character or a `'.'`, and the output length never
exceeds the substituted length plus the three appended dots. -/
theorem sanitize_total (s : List Char) (m : Int) :
    (∀ c ∈ sanitize_name s m, pyWordChar c = true ∨ c = '.')
    ∧ (sanitize_name s m).length ≤ (pySub s).length + 3 := by
  refine ⟨sanitize_name_chars s m, ?_⟩
  unfold sanitize_name pySliceTake
  by_cases hl : m < ((pySub s).length : Int)
  · simp only [hl, if_true]
    by_cases h0 : 0 ≤ m - 3
    · simp only [h0, if_true, List.length_append, List.length_take]
      have hd : (("...").data).length = 3 := rfl
      rw [hd]
      omega
    · simp only [h0, if_false, List.length_append, List.length_take]
      have hd : (("...").data).length = 3 := rfl
      rw [hd]
      omega
  · simp only [hl, if_false]
    omega

theorem sanitize_total_w :
    (pyWordChar 'a' = true ∨ 'a' = '.')
    ∧ (sanitize_name (("abcdef").data) 0).length
        ≤ (pySub (("abcdef").data)).length + 3 :=
  ⟨(sanitize_total (("abcdef").data) 0).1 'a' (by decide),
   (sanitize_total (("abcdef").data) 0).2⟩

/-- Claim C9 (code bug): when `open` succeeds but the probe write raises
`IOError`, the handler raises `PermissionError` without ever reaching the
`os.remove` line, so the probe file `.write_test.tmp` is left in the output
folder — the check does not remove the probe file on this exit path. -/
theorem write_probe_leaves_probe_file :
    write_probe ⟨true, false, true⟩
      = (Except.error VErr.permissionDenied, true) := rfl

/-- Claim C4 (code bug): `csv_to_excel.py` performs no extension check at
all, although its own header (line 46) promises an error for outputs not
ending in `.xlsx`: an output `/root/data/out.xls` — which does not end in
`.xlsx` — passes validation in a writable existing input folder and the
workbook is saved under that name. -/
theorem validate_accepts_xls_output :
    startswith ((("/root/data/out.xls").data).reverse) (((".xlsx").data).reverse)
      = false
    ∧ validate_and_create_output_folder (("/root/data/out.xls").data)
        (("/root/data").data) fsData = Except.ok ()
    ∧ combine_saves (("/root/data/out.xls").data) (("/root/data").data) fsData
        = [("/root/data/out.xls").data] :=
  ⟨by decide, rfl, rfl⟩

/-- Claim C3 (code bug): every `df.to_csv` call in excel_to_csv.py passes
the literal `sep=","` and the script accepts no delimiter option, so the
written fields are joined by a comma and not by any requested alternative
delimiter such as `';'`. -/
theorem to_csv_line_uses_hardcoded_comma :
    to_csv_sep = ','
    ∧ to_csv_line [some (("a").data), some (("b").data)] = ("a,b").data
    ∧ to_csv_line [some (("a").data), some (("b").data)] ≠ ("a;b").data := by
  decide

/-- Claim C1 (counterexample): the claim as stated is false on the code:
for output `/etc/out.xlsx` with input directory `/root/data` — whose
containing folder `/etc` is neither the input directory, nor under it, nor
a sibling of it — validation succeeds when `/etc` exists and is writable,
and the run saves the workbook there; no `InvalidOutputLocation` is
raised, because the child/sibling rule is only consulted for folders that
do not exist. -/
theorem validate_accepts_existing_outside_folder :
    startswith (dirname (("/etc/out.xlsx").data)) (("/root/data").data) = false
    ∧ dirname (dirname (("/etc/out.xlsx").data)) ≠ dirname (("/root/data").data)
    ∧ validate_and_create_output_folder (("/etc/out.xlsx").data)
        (("/root/data").data) fsEtc = Except.ok ()
    ∧ combine_saves (("/etc/out.xlsx").data) (("/root/data").data) fsEtc
        = [("/etc/out.xlsx").data] :=
  ⟨by decide, by decide, rfl, rfl⟩

/-- Claim C1 (amended): the child/sibling rule only governs output folders
that do not yet exist: when the output folder does not exist, is not a
string-prefix extension of the input path, and does not share the input
path's parent, validation fails with `InvalidOutputLocation` and the run
writes no file. -/
theorem validate_rejects_nonexistent_outside_folder
    (out inp : List Char) (fs : FS)
    (h0 : dirname out ≠ [])
    (h1 : fs.pathExists (dirname out) = false)
    (h2 : startswith (dirname out) inp = false)
    (h3 : (dirname (dirname out) == dirname inp) = false) :
    validate_and_create_output_folder out inp fs
      = Except.error VErr.invalidOutputLocation
    ∧ combine_saves out inp fs = [] := by
  have hv : validate_and_create_output_folder out inp fs
      = Except.error VErr.invalidOutputLocation := by
    unfold validate_and_create_output_folder
    rw [if_neg h0]
    simp [h1, h2, h3]
  exact ⟨hv, by simp [combine_saves, hv]⟩

theorem validate_rejects_nonexistent_outside_folder_w :
    (dirname (("/other/out.xlsx").data) ≠ []
     ∧ fsNone.pathExists (dirname (("/other/out.xlsx").data)) = false
     ∧ startswith (dirname (("/other/out.xlsx").data)) (("/root/data").data)
         = false
     ∧ (dirname (dirname (("/other/out.xlsx").data))
          == dirname (("/root/data").data)) = false)
    ∧ (validate_and_create_output_folder (("/other/out.xlsx").data)
         (("/root/data").data) fsNone = Except.error VErr.invalidOutputLocation
       ∧ combine_saves (("/other/out.xlsx").data) (("/root/data").data) fsNone
         = []) :=
  ⟨⟨by decide, by decide, by decide, by decide⟩,
   validate_rejects_nonexistent_outside_folder _ _ fsNone
     (by decide) (by decide) (by decide) (by decide)⟩

theorem digitChar_toNat {d : Nat} (h : d < 10) : (digitChar d).toNat = 48 + d := by
  interval_cases d <;> rfl

theorem isDigitC_digitChar {d : Nat} (h : d < 10) :
    isDigitC (digitChar d) = true := by
  interval_cases d <;> decide

theorem revDigits_all_digits :
    ∀ fuel n, ∀ c ∈ revDigits fuel n, isDigitC c = true := by
  intro fuel
  induction fuel with
  | zero => intro n c hc; simp [revDigits] at hc
  | succ fuel ih =>
    intro n c hc
    cases n with
    | zero => simp [revDigits] at hc
    | succ k =>
      rw [revDigits] at hc
      rcases List.mem_cons.mp hc with h | h
      · subst h
        exact isDigitC_digitChar (Nat.mod_lt _ (by omega))
      · exact ih _ c h

theorem revDigits_foldr :
    ∀ fuel n, n ≤ fuel →
      (revDigits fuel n).foldr (fun c a => a * 10 + (c.toNat - 48)) 0 = n := by
  intro fuel
  induction fuel with
  | zero => intro n h; interval_cases n; rfl
  | succ fuel ih =>
    intro n h
    cases n with
    | zero => rfl
    | succ k =>
      rw [revDigits]
      simp only [List.foldr_cons]
      rw [ih ((k + 1) / 10) (by omega)]
      rw [digitChar_toNat (Nat.mod_lt _ (by omega))]
      omega

theorem pyStrNat_all_digits (n : Nat) : ∀ c ∈ pyStrNat n, isDigitC c = true := by
  intro c hc
  unfold pyStrNat at hc
  by_cases h : n = 0
  · simp [h] at hc
    subst hc; decide
  · simp [h] at hc
    exact revDigits_all_digits n n c hc

theorem pyStrNat_ne_nil (n : Nat) : pyStrNat n ≠ [] := by
  unfold pyStrNat
  by_cases h : n = 0
  · simp [h]
  · simp only [h, if_false]
    intro hc
    rw [List.reverse_eq_nil_iff] at hc
    obtain ⟨k, rfl⟩ : ∃ k, n = k + 1 := ⟨n - 1, by omega⟩
    rw [revDigits] at hc
    exact List.cons_ne_nil _ _ hc

theorem parseNat_pyStrNat (n : Nat) : parseNat (pyStrNat n) = some n := by
  unfold parseNat
  rw [if_neg (pyStrNat_ne_nil n)]
  rw [if_pos (List.all_eq_true.mpr (pyStrNat_all_digits n))]
  congr 1
  unfold pyStrNat
  by_cases h : n = 0
  · subst h; rfl
  · simp only [h, if_false]
    rw [List.foldl_reverse]
    exact revDigits_foldr n n (by omega)

theorem isDigitC_not_upper {c : Char} (h : isDigitC c = true) :
    isUpperAZ c = false := by
  simp [isDigitC] at h
  simp [isUpperAZ]
  omega

theorem isDigitC_ne_colon {c : Char} (h : isDigitC c = true) : c ≠ ':' := by
  intro hc
  subst hc
  exact absurd h (by decide)

theorem colChr_facts {n : Nat} (h1 : 1 ≤ n) (h2 : n ≤ 26) :
    isUpperAZ (colChr n) = true ∧ (colChr n).toNat - 64 = n ∧ colChr n ≠ ':' := by
  interval_cases n <;> exact ⟨by decide, by decide, by decide⟩

theorem pySplit_no_sep (sep : Char) (l : List Char) (h : ∀ c ∈ l, c ≠ sep) :
    pySplit sep l = [l] := by
  induction l with
  | nil => rfl
  | cons c rest ih =>
    rw [pySplit]
    rw [if_neg (h c (by simp))]
    rw [ih (fun d hd => h d (by simp [hd]))]

theorem pySplit_append (sep : Char) (a b : List Char) (h : ∀ c ∈ a, c ≠ sep) :
    pySplit sep (a ++ sep :: b) = a :: pySplit sep b := by
  induction a with
  | nil => simp [pySplit]
  | cons c a ih =>
    rw [List.cons_append, pySplit]
    rw [if_neg (h c (by simp))]
    rw [ih (fun d hd => h d (by simp [hd]))]

theorem parseCell_col_digits {n : Nat} (k : Nat) (h1 : 1 ≤ n) (h2 : n ≤ 26) :
    parseCell ([colChr n] ++ pyStrNat k) = some (k, n) := by
  obtain ⟨hu, hv, _⟩ := colChr_facts h1 h2
  obtain ⟨d, rest, hd⟩ : ∃ d rest, pyStrNat k = d :: rest := by
    cases hp : pyStrNat k with
    | nil => exact absurd hp (pyStrNat_ne_nil k)
    | cons d rest => exact ⟨d, rest, rfl⟩
  have hdd : isDigitC d = true := pyStrNat_all_digits k d (by rw [hd]; simp)
  unfold parseCell
  have hloop : parseColLoop ([colChr n] ++ pyStrNat k) 0 = (n, pyStrNat k) := by
    rw [List.singleton_append, parseColLoop]
    rw [if_pos hu]
    rw [hd, parseColLoop]
    rw [if_neg (by rw [isDigitC_not_upper hdd]; exact Bool.false_ne_true)]
    rw [← hd]
    congr 1
    omega
  rw [hloop]
  show (if n = 0 then none
        else match parseNat (pyStrNat k) with
             | some row => some (row, n)
             | none => none) = some (k, n)
  rw [if_neg (by omega)]
  rw [parseNat_pyStrNat k]

theorem rect_full (g : List (List Val)) (n : Nat)
    (hg : ∀ row ∈ g, row.length = n) :
    (List.range' 1 g.length).map (fun r =>
      (List.range' 1 n).map (fun c => cellVal g r c)) = g := by
  apply List.ext_getElem
  · simp
  · intro i h1 h2
    simp only [List.getElem_map, List.getElem_range']
    apply List.ext_getElem
    · simp [hg (g[i]) (List.getElem_mem h2)]
    · intro j hj1 hj2
      simp only [List.getElem_map, List.getElem_range']
      unfold cellVal
      have hi : 1 + 1 * i - 1 = i := by omega
      have hj : 1 + 1 * j - 1 = j := by omega
      rw [hi, hj]
      rw [List.getElem?_eq_getElem h2]
      simp [Option.join, List.getElem?_eq_getElem hj2]

theorem tableRect_of_range (g : List (List Val)) (n : Nat)
    (h1 : 1 ≤ n) (h2 : n ≤ 26)
    (hg : ∀ row ∈ g, row.length = n) (hlen : g ≠ []) :
    tableRect g (table_range n (g.length - 1)) = some g := by
  have hl : 1 ≤ g.length := List.length_pos.mpr hlen
  have hrow : (g.length - 1) + 1 = g.length := by omega
  have hshape : table_range n (g.length - 1)
      = (['A', '1'] : List Char) ++ ':' :: ([colChr n] ++ pyStrNat g.length) := by
    unfold table_range
    rw [hrow]
    have hA : ("A1:").data = (['A', '1', ':'] : List Char) := rfl
    rw [hA]
    simp
  rw [hshape]
  unfold tableRect
  have hsplit :
      splitColon ((['A', '1'] : List Char) ++ ':' :: ([colChr n] ++ pyStrNat g.length))
        = some (['A', '1'], [colChr n] ++ pyStrNat g.length) := by
    unfold splitColon
    rw [pySplit_append ':' ['A', '1'] _ (by decide)]
    rw [pySplit_no_sep ':' _ ?noc]
    case noc =>
      intro c hc
      rcases List.mem_append.mp hc with h | h
      · have hcolon := (colChr_facts h1 h2).2.2
        simp only [List.mem_singleton] at h
        rw [h]; exact hcolon
      · exact isDigitC_ne_colon (pyStrNat_all_digits _ c h)
  rw [hsplit]
  have hA1 : parseCell (['A', '1'] : List Char) = some (1, 1) := by decide
  rw [Option.some_bind]
  show (parseCell (['A', '1'] : List Char)).bind _ = some g
  rw [hA1, Option.some_bind]
  show (parseCell ([colChr n] ++ pyStrNat g.length)).bind _ = some g
  rw [parseCell_col_digits g.length h1 h2, Option.some_bind]
  show some ((List.range' 1 (g.length + 1 - 1)).map fun r =>
        (List.range' 1 (n + 1 - 1)).map fun c => cellVal g r c) = some g
  have e1 : g.length + 1 - 1 = g.length := by omega
  have e2 : n + 1 - 1 = n := by omega
  rw [e1, e2]
  exact congrArg some (rect_full g n hg)

theorem extractTables_cons_some (title : List Char) (g : List (List Val))
    (t : XTable) (ts : List XTable) (rows : List (List Val))
    (h : tableRect g t.ref = some rows) :
    extractTables title g (t :: ts)
      = (title ++ (" - ").data ++ t.name ++ (".csv").data, rows) ::
          extractTables title g ts := by
  rw [extractTables, h]

theorem extractTables_all_some (title : List Char) (g : List (List Val))
    (ts : List XTable)
    (h : ∀ t ∈ ts, (tableRect g t.ref).isSome = true) :
    extractTables title g ts
      = ts.map (fun t => (title ++ (" - ").data ++ t.name ++ (".csv").data,
          (tableRect g t.ref).getD [])) := by
  induction ts with
  | nil => rfl
  | cons t ts ih =>
    obtain ⟨rows, hr⟩ := Option.isSome_iff_exists.mp (h t (by simp))
    rw [extractTables_cons_some title g t ts rows hr]
    rw [ih (fun u hu => h u (by simp [hu]))]
    rw [List.map_cons, hr]
    rfl

theorem lookupSheet_cons_self (s : Sheet) (rest : Workbook) :
    lookupSheet (s :: rest) s.title = some s := by
  unfold lookupSheet
  exact List.find?_cons_of_pos _ (by simp)

theorem lookupSheet_cons_ne (s : Sheet) (rest : Workbook) (n : List Char)
    (h : s.title ≠ n) : lookupSheet (s :: rest) n = lookupSheet rest n := by
  unfold lookupSheet
  exact List.find?_cons_of_neg _ (by simp [h])

theorem extractByNames_skip (s : Sheet) (rest : Workbook)
    (ns : List (List Char)) (h : ∀ n ∈ ns, s.title ≠ n) :
    extractByNames (s :: rest) ns = extractByNames rest ns := by
  induction ns with
  | nil => rfl
  | cons n ns ih =>
    rw [extractByNames, extractByNames]
    rw [lookupSheet_cons_ne s rest n (h n (by simp))]
    rw [ih (fun m hm => h m (by simp [hm]))]

theorem extract_sheets_cons (s : Sheet) (rest : Workbook)
    (h : s.title ∉ rest.map Sheet.title) :
    extract_sheets_to_csv (s :: rest)
      = extract_sheet s ++ extract_sheets_to_csv rest := by
  unfold extract_sheets_to_csv
  rw [List.map_cons]
  rw [extractByNames]
  rw [lookupSheet_cons_self]
  rw [extractByNames_skip s rest _ (fun n hn heq => h (by rw [heq]; exact hn))]

theorem specExcelCol_small {n : Nat} (h1 : 1 ≤ n) (h2 : n ≤ 26) :
    specExcelCol n = [Char.ofNat (64 + n)] := by
  obtain ⟨k, rfl⟩ : ∃ k, n = k + 1 := ⟨n - 1, by omega⟩
  have hk : k < 26 := by omega
  unfold specExcelCol
  rw [specExcelColAux]
  rw [Nat.div_eq_of_lt hk, Nat.mod_eq_of_lt hk]
  have h0 : specExcelColAux k 0 = [] := by cases k <;> rfl
  rw [h0]
  have h65 : 65 + k = 64 + (k + 1) := by omega
  rw [h65]
  rfl

/-- Claim C5 (amended): for every CSV with between 1 and 26 columns, the
table registered for its sheet spans the full written rectangle, from `A1`
to the cell at the standard name of the last populated column and the last
populated row (data rows plus the header row); beyond 26 columns the
`chr(65 + n - 1)` computation leaves the letter range and the claim
fails. -/
theorem table_region_full_rectangle (f : CsvFile)
    (h1 : 1 ≤ f.header.length) (h2 : f.header.length ≤ 26) :
    ∀ t ∈ (sheetOfCsv f).tables,
      t.ref = specTableRange f.header.length f.rows.length := by
  intro t ht
  have hts : (sheetOfCsv f).tables
      = [{ name := sanitize_name (sanitize_name (splitext_root f.filename) 31) 31
         , ref := table_range f.header.length f.rows.length }] := rfl
  rw [hts] at ht
  rcases List.mem_singleton.mp ht with rfl
  show table_range f.header.length f.rows.length
      = specTableRange f.header.length f.rows.length
  unfold table_range specTableRange
  rw [specExcelCol_small h1 h2]
  unfold colChr
  have h65 : 65 + f.header.length - 1 = 64 + f.header.length := by omega
  rw [h65]

theorem table_region_full_rectangle_w :
    (1 ≤ fileSpace.header.length ∧ fileSpace.header.length ≤ 26)
    ∧ ∀ t ∈ (sheetOfCsv fileSpace).tables,
        t.ref = specTableRange fileSpace.header.length fileSpace.rows.length :=
  ⟨⟨by decide, by decide⟩,
   table_region_full_rectangle fileSpace (by decide) (by decide)⟩

/-- Claim C5 (counterexample): the claim as stated is false on the code for
27 columns: the computed range string uses `chr(65 + 27 - 1) = '['`, which
is not a column name, instead of the 27th column `AA`. -/
theorem table_range_breaks_past_26_columns :
    table_range 27 1 = ("A1:[2").data
    ∧ specTableRange 27 1 = ("A1:AA2").data
    ∧ table_range 27 1 ≠ specTableRange 27 1 := by
  decide

/-- Claim C7 (amended): every sheet with at least one non-empty cell that
declares one or more named tables, each with a resolvable rectangular
reference, yields exactly one CSV per table, named
`<sheetName> - <tableName>.csv` and containing exactly the rectangle the
table's reference spans (its header row included, none added), and no
`<sheetName>.csv` is written for that sheet; an entirely empty sheet is
skipped before the table branch, and an unresolvable reference aborts the
sheet, in both cases dropping the claimed per-table CSVs. -/
theorem sheet_with_tables_one_csv_per_table (s : Sheet)
    (h1 : allEmpty s.grid = false)
    (h2 : s.tables ≠ [])
    (h3 : ∀ t ∈ s.tables, (tableRect s.grid t.ref).isSome = true) :
    extract_sheet s
      = s.tables.map (fun t =>
          (s.title ++ (" - ").data ++ t.name ++ (".csv").data,
           (tableRect s.grid t.ref).getD []))
    ∧ ∀ e ∈ extract_sheet s, e.1 ≠ s.title ++ (".csv").data := by
  have hmain : extract_sheet s
      = s.tables.map (fun t =>
          (s.title ++ (" - ").data ++ t.name ++ (".csv").data,
           (tableRect s.grid t.ref).getD [])) := by
    unfold extract_sheet
    simp only [h1, Bool.false_eq_true, if_false]
    have htabne : s.tables.isEmpty = false := by
      simp [List.isEmpty_iff, h2]
    simp only [htabne, Bool.false_eq_true, if_false]
    exact extractTables_all_some s.title s.grid s.tables h3
  refine ⟨hmain, ?_⟩
  intro e he heq
  rw [hmain] at he
  rcases List.mem_map.mp he with ⟨t, _, rfl⟩
  have hlen := congrArg List.length heq
  simp only [List.length_append] at hlen
  have e3 : ((" - ").data).length = 3 := rfl
  have e4 : ((".csv").data).length = 4 := rfl
  rw [e3, e4] at hlen
  omega

theorem sheet_with_tables_one_csv_per_table_w :
    (allEmpty sheetTables2.grid = false
     ∧ sheetTables2.tables ≠ []
     ∧ ∀ t ∈ sheetTables2.tables,
         (tableRect sheetTables2.grid t.ref).isSome = true)
    ∧ (extract_sheet sheetTables2
         = sheetTables2.tables.map (fun t =>
             (sheetTables2.title ++ (" - ").data ++ t.name ++ (".csv").data,
              (tableRect sheetTables2.grid t.ref).getD []))
       ∧ ∀ e ∈ extract_sheet sheetTables2,
           e.1 ≠ sheetTables2.title ++ (".csv").data) :=
  ⟨⟨by decide, by decide, by decide⟩,
   sheet_with_tables_one_csv_per_table sheetTables2
     (by decide) (by decide) (by decide)⟩

/-- Claim C7 (counterexample): the claim as stated is false on the code: a
sheet whose every cell is empty but which declares one named table is
skipped by the emptiness test before the table branch and produces no CSV
at all, and a sheet declaring a table whose reference does not resolve
produces no CSV either. -/
theorem sheet_with_tables_no_csv_cases :
    sheetEmptyT.tables.length = 1 ∧ extract_sheet sheetEmptyT = []
    ∧ sheetBadRef.tables.length = 1 ∧ extract_sheet sheetBadRef = [] := by
  decide

theorem le_foldr_max {a : Nat} {l : List Nat} (h : a ∈ l) :
    a ≤ l.foldr max 0 := by
  induction l with
  | nil => simp at h
  | cons b l ih =>
    rw [List.foldr_cons]
    rcases List.mem_cons.mp h with rfl | h
    · exact Nat.le_max_left _ _
    · exact le_trans (ih h) (Nat.le_max_right _ _)

theorem pyStrNat_isEmpty_false (n : Nat) : (pyStrNat n).isEmpty = false := by
  cases hp : pyStrNat n with
  | nil => exact absurd hp (pyStrNat_ne_nil n)
  | cons c l => rfl

theorem avoid_duplicate_name_fresh (names : List (List Char))
    (v : List Char) : avoid_duplicate_name names v ∉ names := by
  unfold avoid_duplicate_name
  by_cases hv : v ∈ names
  · simp only [hv, if_true]
    intro hmem
    have hcnt : ((nameCounters names v).foldr max 0 + 1)
        ∈ nameCounters names v := by
      unfold nameCounters
      apply List.mem_filterMap.mpr
      refine ⟨v ++ pyStrNat ((nameCounters names v).foldr max 0 + 1), hmem, ?_⟩
      rw [if_pos (by rw [List.take_left]; exact beq_self_eq_true v)]
      show (if _ then parseNat ((v ++ _).drop v.length) else none) = _
      rw [List.drop_left]
      rw [if_pos ?cond]
      case cond =>
        rw [pyStrNat_isEmpty_false, Bool.not_false, Bool.true_and]
        exact List.all_eq_true.mpr (pyStrNat_all_digits _)
      exact parseNat_pyStrNat _
    have := le_foldr_max hcnt
    omega
  · rw [if_neg hv]
    exact hv

theorem toNat_ofNat_valid {n : Nat} (h : n.isValidChar) :
    (Char.ofNat n).toNat = n := by
  rw [Char.ofNat, dif_pos h]
  rfl

theorem toNat_ofNat_invalid {n : Nat} (h : ¬ n.isValidChar) :
    (Char.ofNat n).toNat = 0 := by
  rw [Char.ofNat, dif_neg h]
  rfl

theorem isRefLetter_colChr {n : Nat} (h : isRefLetter (colChr n) = true) :
    (1 ≤ n ∧ n ≤ 26) ∨ (33 ≤ n ∧ n ≤ 58) := by
  unfold colChr at h
  unfold isRefLetter at h
  by_cases hv : (65 + n - 1).isValidChar
  · rw [toNat_ofNat_valid hv] at h
    simp only [Bool.or_eq_true, Bool.and_eq_true, decide_eq_true_eq] at h
    omega
  · rw [toNat_ofNat_invalid hv] at h
    exact absurd h (by decide)

theorem colChr_ne_colon (n : Nat) : colChr n ≠ ':' := by
  intro h
  have ht : (colChr n).toNat = 58 := by rw [h]; rfl
  unfold colChr at ht
  by_cases hv : (65 + n - 1).isValidChar
  · rw [toNat_ofNat_valid hv] at ht; omega
  · rw [toNat_ofNat_invalid hv] at ht; omega

theorem colChr_ne_dollar (n : Nat) : colChr n ≠ '$' := by
  intro h
  have ht : (colChr n).toNat = 36 := by rw [h]; rfl
  unfold colChr at ht
  by_cases hv : (65 + n - 1).isValidChar
  · rw [toNat_ofNat_valid hv] at ht; omega
  · rw [toNat_ofNat_invalid hv] at ht; omega

theorem pySplit_table_range (n m : Nat) :
    pySplit ':' (table_range n m)
      = [(['A', '1'] : List Char), [colChr n] ++ pyStrNat (m + 1)] := by
  have hshape : table_range n m
      = (['A', '1'] : List Char) ++ ':' :: ([colChr n] ++ pyStrNat (m + 1)) := by
    unfold table_range
    have hA : ("A1:").data = (['A', '1', ':'] : List Char) := rfl
    rw [hA]
    simp
  rw [hshape, pySplit_append ':' ['A', '1'] _ (by decide)]
  rw [pySplit_no_sep ':' _ ?noc]
  case noc =>
    intro c hc
    rcases List.mem_append.mp hc with h1 | h2
    · simp only [List.mem_singleton] at h1
      rw [h1]
      exact colChr_ne_colon n
    · exact isDigitC_ne_colon (pyStrNat_all_digits _ c h2)

theorem validCellRange_table_range {n m : Nat}
    (h : validCellRange (table_range n m) = true) :
    (1 ≤ n ∧ n ≤ 26) ∨ (33 ≤ n ∧ n ≤ 58) := by
  apply isRefLetter_colChr
  unfold validCellRange at h
  rw [pySplit_table_range n m] at h
  have hand : (validCoord (['A', '1'] : List Char)
      && validCoord ([colChr n] ++ pyStrNat (m + 1))) = true := h
  rw [Bool.and_eq_true] at hand
  by_cases hl : isRefLetter (colChr n) = true
  · exact hl
  · exfalso
    rw [Bool.not_eq_true] at hl
    have hd : stripDollar (colChr n :: pyStrNat (m + 1))
        = colChr n :: pyStrNat (m + 1) := by
      show (if colChr n = '$' then pyStrNat (m + 1)
            else colChr n :: pyStrNat (m + 1)) = colChr n :: pyStrNat (m + 1)
      rw [if_neg (colChr_ne_dollar n)]
    have h2 := hand.2
    simp only [validCoord, List.singleton_append, hd] at h2
    rw [List.takeWhile_cons_of_neg (by simp [hl])] at h2
    simp at h2

theorem parseRefBounds_table_range {n : Nat} (m : Nat)
    (h1 : 1 ≤ n) (h2 : n ≤ 26) :
    parseRefBounds (table_range n m) = some ((1, 1), (m + 1, n)) := by
  unfold parseRefBounds
  have hsp : splitColon (table_range n m)
      = some ((['A', '1'] : List Char), [colChr n] ++ pyStrNat (m + 1)) := by
    unfold splitColon
    rw [pySplit_table_range n m]
  rw [hsp, Option.some_bind]
  show (parseCell (['A', '1'] : List Char)).bind _ = _
  rw [(by decide : parseCell (['A', '1'] : List Char) = some (1, 1))]
  rw [Option.some_bind]
  show (parseCell ([colChr n] ++ pyStrNat (m + 1))).bind _ = _
  rw [parseCell_col_digits (m + 1) h1 h2, Option.some_bind]

theorem addFile_titles (wb : Workbook) (f : CsvFile) :
    (addFile wb f).map Sheet.title
      = wb.map Sheet.title
        ++ [avoid_duplicate_name (wb.map Sheet.title)
              (sanitize_name (splitext_root f.filename) 31)] := by
  unfold addFile
  rw [List.map_append]
  rfl

theorem fold_titles_nodup :
    ∀ (l : List CsvFile) (wb : Workbook),
      (wb.map Sheet.title).Nodup →
      ((l.foldl addFile wb).map Sheet.title).Nodup := by
  intro l
  induction l with
  | nil => intro wb h; exact h
  | cons f l ih =>
    intro wb h
    rw [List.foldl_cons]
    apply ih
    rw [addFile_titles]
    apply List.Nodup.append h (List.nodup_singleton _)
    intro a ha hb
    rw [List.mem_singleton] at hb
    subst hb
    exact avoid_duplicate_name_fresh _ _ ha

theorem fold_mem_mono :
    ∀ (l : List CsvFile) (wb : Workbook) (s : Sheet),
      s ∈ wb → s ∈ l.foldl addFile wb := by
  intro l
  induction l with
  | nil => intro wb s h; exact h
  | cons f l ih =>
    intro wb s h
    rw [List.foldl_cons]
    exact ih _ _ (List.mem_append_left _ h)

theorem newSheet_grid (wb : Workbook) (f : CsvFile) :
    (newSheet wb f).grid
      = (f.header :: f.rows).map (fun r => r.map (fun v => some v)) := rfl

theorem newSheet_tables (wb : Workbook) (f : CsvFile) :
    (newSheet wb f).tables = []
    ∨ ((newSheet wb f).tables
        = [{ name := sanitize_name
               (sanitize_name (splitext_root f.filename) 31) 31
           , ref := table_range f.header.length f.rows.length }]
       ∧ validCellRange (table_range f.header.length f.rows.length) = true) := by
  by_cases hok : (validCellRange (table_range f.header.length f.rows.length) &&
      !((tableNames wb).any (fun n => eqUpperName n
          (sanitize_name (sanitize_name (splitext_root f.filename) 31) 31))))
      = true
  · right
    have hv := (Bool.and_eq_true _ _ ▸ hok).1
    exact ⟨by simp [newSheet, hok], hv⟩
  · left
    simp [newSheet, hok]

theorem fold_adds_sheet :
    ∀ (l : List CsvFile) (wb : Workbook) (f : CsvFile), f ∈ l →
      ∃ s ∈ l.foldl addFile wb,
        s.grid = (f.header :: f.rows).map (fun r => r.map (fun v => some v))
        ∧ (s.tables = []
           ∨ (s.tables
                = [{ name := sanitize_name
                       (sanitize_name (splitext_root f.filename) 31) 31
                   , ref := table_range f.header.length f.rows.length }]
              ∧ validCellRange (table_range f.header.length f.rows.length)
                  = true)) := by
  intro l
  induction l with
  | nil => intro wb f h; simp at h
  | cons g l ih =>
    intro wb f h
    rw [List.foldl_cons]
    rcases List.mem_cons.mp h with rfl | h
    · refine ⟨newSheet wb f, fold_mem_mono l _ _ ?_, newSheet_grid wb f,
        newSheet_tables wb f⟩
      unfold addFile
      exact List.mem_append_right _ (List.mem_singleton.mpr rfl)
    · exact ih _ f h

theorem fold_tables_parse :
    ∀ (l : List CsvFile) (wb : Workbook),
      (∀ s ∈ wb, ∀ t ∈ s.tables, (parseRefBounds t.ref).isSome = true) →
      (∀ f ∈ l, ¬(33 ≤ f.header.length ∧ f.header.length ≤ 58)) →
      ∀ s ∈ l.foldl addFile wb, ∀ t ∈ s.tables,
        (parseRefBounds t.ref).isSome = true := by
  intro l
  induction l with
  | nil => intro wb hwb _ s hs; exact hwb s hs
  | cons g l ih =>
    intro wb hwb hc s hs
    rw [List.foldl_cons] at hs
    refine ih (addFile wb g) ?base (fun f hf => hc f (by simp [hf])) s hs
    intro s2 hs2 t ht
    unfold addFile at hs2
    rcases List.mem_append.mp hs2 with h | h
    · exact hwb s2 h t ht
    · rw [List.mem_singleton] at h
      subst h
      rcases newSheet_tables wb g with hnil | ⟨htab, hvalid⟩
      · rw [hnil] at ht; simp at ht
      · rw [htab] at ht
        rw [List.mem_singleton] at ht
        subst ht
        show (parseRefBounds (table_range g.header.length g.rows.length)).isSome
            = true
        rcases validCellRange_table_range hvalid with ⟨ha, hb⟩ | hbad
        · rw [parseRefBounds_table_range _ ha hb]; rfl
        · exact absurd hbad (hc g (by simp))

theorem content_rows_length (f : CsvFile)
    (hrect : ∀ r ∈ f.rows, r.length = f.header.length) :
    ∀ row ∈ (f.header :: f.rows).map (fun r => r.map (fun v => some v)),
      row.length = f.header.length := by
  intro row hrow
  rcases List.mem_map.mp hrow with ⟨a, ha, rfl⟩
  rw [List.length_map]
  rcases List.mem_cons.mp ha with h | h
  · rw [h]
  · exact hrect a h

theorem allEmpty_content_false (f : CsvFile) (h : 1 ≤ f.header.length) :
    allEmpty ((f.header :: f.rows).map (fun r => r.map (fun v => some v)))
      = false := by
  obtain ⟨h0, t, hh⟩ : ∃ c t, f.header = c :: t := by
    cases fh : f.header with
    | nil => rw [fh] at h; simp at h
    | cons c t => exact ⟨c, t, rfl⟩
  rw [hh]
  simp [allEmpty]

theorem tableRect_content (f : CsvFile) (h1 : 1 ≤ f.header.length)
    (h2 : f.header.length ≤ 26)
    (hrect : ∀ r ∈ f.rows, r.length = f.header.length) :
    tableRect ((f.header :: f.rows).map (fun r => r.map (fun v => some v)))
        (table_range f.header.length f.rows.length)
      = some ((f.header :: f.rows).map (fun r => r.map (fun v => some v))) := by
  have hglen :
      (f.header :: f.rows).map (fun r => r.map (fun v => some v)) ≠ [] := by
    simp
  have hgm :
      ((f.header :: f.rows).map (fun r => r.map (fun v => some v))).length - 1
        = f.rows.length := by
    simp
  have hx := tableRect_of_range _ f.header.length h1 h2
    (content_rows_length f hrect) hglen
  rw [hgm] at hx
  exact hx

theorem extract_sheet_untabled (s : Sheet) (h1 : allEmpty s.grid = false)
    (h2 : s.tables = []) :
    extract_sheet s = [(s.title ++ (".csv").data, s.grid)] := by
  unfold extract_sheet
  simp [h1, h2]

theorem extract_sheet_one_table (s : Sheet) (t : XTable)
    (rows : List (List Val))
    (h1 : allEmpty s.grid = false) (h2 : s.tables = [t])
    (h3 : tableRect s.grid t.ref = some rows) :
    extract_sheet s
      = [(s.title ++ (" - ").data ++ t.name ++ (".csv").data, rows)] := by
  unfold extract_sheet
  simp only [h1, Bool.false_eq_true, if_false, h2]
  rw [(by rfl : ([t] : List XTable).isEmpty = false)]
  simp only [Bool.false_eq_true, if_false]
  rw [extractTables_cons_some _ _ _ _ _ h3]
  rfl

theorem extract_mem_of_sheet :
    ∀ (wb : Workbook), (wb.map Sheet.title).Nodup →
      ∀ s ∈ wb, ∀ e ∈ extract_sheet s, e ∈ extract_sheets_to_csv wb := by
  intro wb
  induction wb with
  | nil => intro _ s h; simp at h
  | cons s0 rest ih =>
    intro hnd s hs e he
    rw [List.map_cons] at hnd
    have hnd2 := List.nodup_cons.mp hnd
    rw [extract_sheets_cons s0 rest hnd2.1]
    rcases List.mem_cons.mp hs with rfl | hs
    · exact List.mem_append_left _ he
    · exact List.mem_append_right _ (ih hnd2.2 s hs e he)

/-- Claim C6 (amended): for every collection of non-empty, well-formed
(rectangular, at least one column) CSV files in which no file has between
33 and 58 columns, converting them into one workbook and back yields, for
each original file, a CSV whose header row plus data rows equal the
original's header row plus data rows (cell values verbatim; quoting/type
formatting is the external library's concern).  No distinctness condition
on the sanitized names is needed: the collaborator renames duplicate sheet
titles and rejects duplicate table names and malformed table references at
construction, leaving untabled sheets whose full contents are still
extracted; only the 33-to-58-column zone — where `chr(65 + ncols - 1)` is
a lowercase letter, so the reference passes construction but the workbook
cannot be saved — must be excluded. -/
theorem csv_workbook_roundtrip_saved (files : List CsvFile)
    (hne : ∀ f ∈ files, f.rows ≠ [])
    (hhd : ∀ f ∈ files, 1 ≤ f.header.length)
    (hrect : ∀ f ∈ files, ∀ r ∈ f.rows, r.length = f.header.length)
    (hcols : ∀ f ∈ files, ¬(33 ≤ f.header.length ∧ f.header.length ≤ 58)) :
    ∀ f ∈ files, ∃ e ∈ combine_then_extract files,
      e.2 = (f.header :: f.rows).map (fun r => r.map (fun v => some v)) := by
  intro f hf
  have hfilter : files.filter (fun f => !f.rows.isEmpty) = files := by
    apply List.filter_eq_self.mpr
    intro a ha
    have hane : a.rows ≠ [] := hne a ha
    cases hr : a.rows with
    | nil => exact absurd hr hane
    | cons x l => rfl
  have hwb : combine_csvs_wb files = files.foldl addFile [] := by
    unfold combine_csvs_wb
    rw [hfilter]
  have hnodup : ((combine_csvs_wb files).map Sheet.title).Nodup := by
    rw [hwb]
    exact fold_titles_nodup files [] (by simp)
  have hsave : wb_saveable (combine_csvs_wb files) = true := by
    unfold wb_saveable
    apply List.all_eq_true.mpr
    intro s hs
    apply List.all_eq_true.mpr
    intro t ht
    rw [hwb] at hs
    exact fold_tables_parse files [] (by simp) hcols s hs t ht
  have hpipe : combine_then_extract files
      = extract_sheets_to_csv (combine_csvs_wb files) := by
    unfold combine_then_extract
    simp [hsave]
  obtain ⟨s, hsmem, hgrid, htabs⟩ := fold_adds_sheet files [] f hf
  rw [← hwb] at hsmem
  have h1 : allEmpty s.grid = false := by
    rw [hgrid]
    exact allEmpty_content_false f (hhd f hf)
  rcases htabs with htab | ⟨htab, hvalid⟩
  · refine ⟨(s.title ++ (".csv").data, s.grid), ?_, by rw [hgrid]⟩
    rw [hpipe]
    apply extract_mem_of_sheet _ hnodup s hsmem
    rw [extract_sheet_untabled s h1 htab]
    simp
  · have hn : 1 ≤ f.header.length ∧ f.header.length ≤ 26 := by
      rcases validCellRange_table_range hvalid with ⟨ha, hb⟩ | hbad
      · exact ⟨ha, hb⟩
      · exact absurd hbad (hcols f hf)
    have hrectg : tableRect s.grid (table_range f.header.length f.rows.length)
        = some s.grid := by
      rw [hgrid]
      exact tableRect_content f hn.1 hn.2 (hrect f hf)
    refine ⟨(s.title ++ (" - ").data
        ++ sanitize_name (sanitize_name (splitext_root f.filename) 31) 31
        ++ (".csv").data, s.grid), ?_, by rw [hgrid]⟩
    rw [hpipe]
    apply extract_mem_of_sheet _ hnodup s hsmem
    rw [extract_sheet_one_table s _ s.grid h1 htab hrectg]
    exact List.mem_singleton.mpr rfl

theorem csv_workbook_roundtrip_saved_w :
    ((∀ f ∈ [fileSpace, fileUnderscore, fileWide], f.rows ≠ [])
     ∧ (∀ f ∈ [fileSpace, fileUnderscore, fileWide], 1 ≤ f.header.length)
     ∧ (∀ f ∈ [fileSpace, fileUnderscore, fileWide],
          ∀ r ∈ f.rows, r.length = f.header.length)
     ∧ (∀ f ∈ [fileSpace, fileUnderscore, fileWide],
          ¬(33 ≤ f.header.length ∧ f.header.length ≤ 58)))
    ∧ (∃ e ∈ combine_then_extract [fileSpace, fileUnderscore, fileWide],
        e.2 = (fileUnderscore.header :: fileUnderscore.rows).map
                (fun r => r.map (fun v => some v)))
    ∧ (∃ e ∈ combine_then_extract [fileSpace, fileUnderscore, fileWide],
        e.2 = (fileWide.header :: fileWide.rows).map
                (fun r => r.map (fun v => some v))) :=
  ⟨⟨by decide, by decide, by decide, by decide⟩,
   csv_workbook_roundtrip_saved _ (by decide) (by decide) (by decide)
     (by decide) fileUnderscore (by decide),
   csv_workbook_roundtrip_saved _ (by decide) (by decide) (by decide)
     (by decide) fileWide (by decide)⟩

/-- Claim C6 (counterexample): the claim as stated is false on the code at
a 33-column file: `chr(65 + 33 - 1)` is the lowercase letter `'a'`, so the
computed reference `A1:a2` passes the construction-time `CellRange`
pattern and the table is registered, but saving the workbook resolves
column letters through the uppercase-only lookup and raises, the handler
at csv_to_excel.py lines 250-255 swallows the error, no workbook file is
written, and the round trip emits no CSV at all for the collection. -/
theorem roundtrip_fails_at_33_columns :
    file33.rows ≠ []
    ∧ colChr 33 = 'a'
    ∧ validCellRange (table_range 33 1) = true
    ∧ (parseRefBounds (table_range 33 1)).isSome = false
    ∧ combine_then_extract [file33] = [] := by
  decide
